import Mathlib

/-!
Verification development for the BioIntertidal Mapper script
(`BioIntertidalMapper_script_v2.0.py`).

The Python program is a Tkinter front end around the Google Earth Engine
client.  The logic embedded here is the part that is deterministic and
observable: the text-field parsers (`_parse_tile`, `_parse_int`,
`_parse_float`, `_read_params_from_ui`), the parameter validator
(`_validate_params`), the export-name construction of
`_export_ndvi_and_rgb`, and the processing worker `_process_worker`,
whose observable behaviour is modelled as a list of UI / remote events.

Conventions of the embedding:
* Python `int` is `Int`, Python `float` fields carrying NDVI bounds are
  `ℚ` (the program only compares them, so exact rationals are faithful
  for every claim considered here).
* Python strings are `String`; `str.strip` / `str.upper` /
  `str.replace` are modelled on the underlying character list with the
  ASCII behaviour (all inputs the program deals with are ASCII).
* `datetime.date.fromisoformat` is modelled for the canonical
  `YYYY-MM-DD` form, with the proleptic-Gregorian validity rules
  (month range, month lengths, leap years, year at least 1).
* Remote calls are the only sources of exceptions considered; a run is
  parameterised by an optional index of the remote call that raises.
-/

/-- Whitespace characters removed by Python `str.strip()` (ASCII part). -/
def isPySpace (c : Char) : Bool :=
  c == ' ' || c == '\t' || c == '\n' || c == '\r' || c == '\x0b' || c == '\x0c'

/-- Model of Python `str.strip()`: drop leading and trailing whitespace. -/
def pyStrip (s : String) : String :=
  String.mk (((s.data.dropWhile isPySpace).reverse.dropWhile isPySpace).reverse)

/-- Model of Python `str.upper()` restricted to ASCII letters. -/
def pyUpper (s : String) : String :=
  String.mk (s.data.map Char.toUpper)

/-- Model of Python `.replace("-", "")`: remove every hyphen. -/
def removeDashes (s : String) : String :=
  String.mk (s.data.filter (fun c => !(c == '-')))

/-- Model of Python `.replace(" ", "")`: remove every space. -/
def removeSpaces (s : String) : String :=
  String.mk (s.data.filter (fun c => !(c == ' ')))

/-- Embedding of `_parse_tile`: `value.strip().replace(" ", "").upper()`. -/
def _parse_tile (value : String) : String :=
  pyUpper (removeSpaces (pyStrip value))

/-- Numeric value of a decimal digit character. -/
def digitVal (c : Char) : Nat := c.toNat - '0'.toNat

/-- Value of a list of decimal digit characters, most significant first. -/
def digitsToNat (cs : List Char) : Nat :=
  cs.foldl (fun n c => 10 * n + digitVal c) 0

/-- Model of Python `int(str)` on its decimal form: optional surrounding
whitespace, optional sign, then a nonempty run of digits.  (Underscore
digit grouping is not modelled; the program never feeds it.) -/
def pyParseInt (s : String) : Option Int :=
  match (pyStrip s).data with
  | [] => none
  | c :: rest =>
    if c = '-' then
      if rest ≠ [] ∧ rest.all Char.isDigit then some (-(digitsToNat rest : Int)) else none
    else if c = '+' then
      if rest ≠ [] ∧ rest.all Char.isDigit then some (digitsToNat rest : Int) else none
    else if (c :: rest).all Char.isDigit then some (digitsToNat (c :: rest) : Int)
    else none

/-- Split a leading optional sign off a character list, returning the sign
as `1` or `-1`. -/
def splitSign : List Char → Int × List Char
  | '-' :: rest => (-1, rest)
  | '+' :: rest => (1, rest)
  | cs => (1, cs)

/-- Leading run of decimal digits and the remainder. -/
def splitDigits (cs : List Char) : List Char × List Char :=
  (cs.takeWhile Char.isDigit, cs.dropWhile Char.isDigit)

/-- Parse the optional exponent tail of a Python float literal: either
nothing, or `e`/`E`, an optional sign and a nonempty digit run. -/
def parseExpTail : List Char → Option Int
  | [] => some 0
  | 'e' :: rest =>
    let (sg, rest2) := splitSign rest
    let (ds, rest3) := splitDigits rest2
    if ds ≠ [] ∧ rest3 = [] then some (sg * (digitsToNat ds : Int)) else none
  | 'E' :: rest =>
    let (sg, rest2) := splitSign rest
    let (ds, rest3) := splitDigits rest2
    if ds ≠ [] ∧ rest3 = [] then some (sg * (digitsToNat ds : Int)) else none
  | _ => none

/-- Mantissa value: integer digits, fraction digits. -/
def mantissaVal (ip fp : List Char) : ℚ :=
  (digitsToNat ip : ℚ) + (digitsToNat fp : ℚ) / ((10 : ℚ) ^ fp.length)

/-- Model of Python `float(str)` on decimal literals: optional surrounding
whitespace, optional sign, digits with an optional fractional part (at
least one digit overall), optional exponent.  (`inf` / `nan` and
underscore grouping are not modelled; the represented value is the exact
rational, which is what every comparison in the program observes.) -/
def pyParseFloat (s : String) : Option ℚ :=
  let cs := (pyStrip s).data
  let (sg, cs1) := splitSign cs
  let (ip, cs2) := splitDigits cs1
  match cs2 with
  | '.' :: rest =>
    let (fp, cs3) := splitDigits rest
    if ip = [] ∧ fp = [] then none
    else (parseExpTail cs3).map (fun e => (sg : ℚ) * mantissaVal ip fp * (10 : ℚ) ^ e)
  | other =>
    if ip = [] then none
    else (parseExpTail other).map (fun e => (sg : ℚ) * mantissaVal ip [] * (10 : ℚ) ^ e)

/-- A calendar date, as produced by `datetime.date.fromisoformat`. -/
structure PyDate where
  year : Nat
  month : Nat
  day : Nat
deriving DecidableEq

/-- Gregorian leap-year rule, as implemented by Python `datetime`. -/
def isLeapYear (y : Nat) : Bool :=
  (y % 4 == 0 && y % 100 != 0) || y % 400 == 0

/-- Number of days of a month in a given year. -/
def daysInMonth (y m : Nat) : Nat :=
  if m = 2 then (if isLeapYear y then 29 else 28)
  else if m = 4 ∨ m = 6 ∨ m = 9 ∨ m = 11 then 30
  else 31

/-- Model of `datetime.date.fromisoformat` on the canonical `YYYY-MM-DD`
form: ten characters, digits in the digit positions, hyphens in the
separator positions, and a valid proleptic-Gregorian date (year at least
1, month 1..12, day within the month). -/
def parseIsoDate (s : String) : Option PyDate :=
  match s.data with
  | [y1, y2, y3, y4, h1, m1, m2, h2, d1, d2] =>
    if y1.isDigit ∧ y2.isDigit ∧ y3.isDigit ∧ y4.isDigit ∧ h1 = '-' ∧
        m1.isDigit ∧ m2.isDigit ∧ h2 = '-' ∧ d1.isDigit ∧ d2.isDigit then
      let y := 1000 * digitVal y1 + 100 * digitVal y2 + 10 * digitVal y3 + digitVal y4
      let m := 10 * digitVal m1 + digitVal m2
      let d := 10 * digitVal d1 + digitVal d2
      if 1 ≤ y ∧ 1 ≤ m ∧ m ≤ 12 ∧ 1 ≤ d ∧ d ≤ daysInMonth y m then
        some ⟨y, m, d⟩
      else none
    else none
  | _ => none

/-- Strict order on dates, as Python compares `datetime.date` values:
lexicographic on (year, month, day). -/
def PyDate.lt (a b : PyDate) : Bool :=
  if a.year ≠ b.year then decide (a.year < b.year)
  else if a.month ≠ b.month then decide (a.month < b.month)
  else decide (a.day < b.day)

/-- Embedding of the frozen dataclass `MapperParams`. -/
structure MapperParams where
  start_date : String
  end_date : String
  cloudy_percentage : Int
  max_water_percentage : Int
  tile : String
  start_ndvi : ℚ
  end_ndvi : ℚ
  geometry_asset_id : String
  epsg : Int
  drive_folder : String
deriving DecidableEq

/-- The raw text of the ten entry widgets, as read by
`_read_params_from_ui` before any parsing. -/
structure RawParams where
  start_date : String
  end_date : String
  cloudy_percentage : String
  max_water_percentage : String
  tile : String
  start_ndvi : String
  end_ndvi : String
  geometry : String
  epsg : String
  folder_name : String
deriving DecidableEq

/-- Embedding of `_parse_int`: `int(value)` or a `ValueError` whose
message names the field. -/
def _parse_int (value : String) (field_name : String) : Except String Int :=
  match pyParseInt value with
  | some n => Except.ok n
  | none => Except.error (field_name ++ " must be an integer.")

/-- Embedding of `_parse_float`: `float(value)` or a `ValueError` whose
message names the field. -/
def _parse_float (value : String) (field_name : String) : Except String ℚ :=
  match pyParseFloat value with
  | some q => Except.ok q
  | none => Except.error (field_name ++ " must be a number.")

/-- Embedding of `_read_params_from_ui`: strip the text fields, parse the
numeric ones in source order, raising (here: returning) the first parse
error, and build the `MapperParams` record. -/
def _read_params_from_ui (r : RawParams) : Except String MapperParams :=
  (_parse_int r.cloudy_percentage "Cloud percentage").bind fun ci =>
  (_parse_int r.max_water_percentage "Max water percentage").bind fun wi =>
  (_parse_float r.start_ndvi "NDVI start").bind fun sn =>
  (_parse_float r.end_ndvi "NDVI end").bind fun en =>
  (_parse_int (pyStrip r.epsg) "EPSG").bind fun ep =>
  Except.ok
    { start_date := pyStrip r.start_date
      end_date := pyStrip r.end_date
      cloudy_percentage := ci
      max_water_percentage := wi
      tile := _parse_tile r.tile
      start_ndvi := sn
      end_ndvi := en
      geometry_asset_id := pyStrip r.geometry
      epsg := ep
      drive_folder := pyStrip r.folder_name }

/-- Specification-side restatement of the parsing contract: examine the
five numeric fields in their fixed order and report the descriptive
message of the first non-numeric one, otherwise the typed record. -/
def readParamsSpec (r : RawParams) : Except String MapperParams :=
  match pyParseInt r.cloudy_percentage, pyParseInt r.max_water_percentage,
      pyParseFloat r.start_ndvi, pyParseFloat r.end_ndvi,
      pyParseInt (pyStrip r.epsg) with
  | none, _, _, _, _ => Except.error "Cloud percentage must be an integer."
  | some _, none, _, _, _ => Except.error "Max water percentage must be an integer."
  | some _, some _, none, _, _ => Except.error "NDVI start must be a number."
  | some _, some _, some _, none, _ => Except.error "NDVI end must be a number."
  | some _, some _, some _, some _, none => Except.error "EPSG must be an integer."
  | some ci, some wi, some sn, some en, some ep =>
    Except.ok
      { start_date := pyStrip r.start_date
        end_date := pyStrip r.end_date
        cloudy_percentage := ci
        max_water_percentage := wi
        tile := _parse_tile r.tile
        start_ndvi := sn
        end_ndvi := en
        geometry_asset_id := pyStrip r.geometry
        epsg := ep
        drive_folder := pyStrip r.folder_name }

/-- The regex `^T\d{2}[A-Z]{3}$` of `_validate_params`, as a whole-string
match: `T`, two ASCII digits, three ASCII capitals. -/
def tileFullmatch (s : String) : Bool :=
  match s.data with
  | [t, n1, n2, a1, a2, a3] =>
    t == 'T' && n1.isDigit && n2.isDigit &&
      ('A' ≤ a1 && a1 ≤ 'Z') && ('A' ≤ a2 && a2 ≤ 'Z') && ('A' ≤ a3 && a3 ≤ 'Z')
  | _ => false

/-- Embedding of `_validate_params`: the exact cascade of checks of the
source, returning `(False, message)` at the first failing check and
`(True, "")` when all pass. -/
def _validate_params (p : MapperParams) : Bool × String :=
  if p.tile = "" then
    (false, "Sentinel-2 tile must not be empty. Example: T29UPV")
  else if pyStrip p.geometry_asset_id = "" then
    (false, "Geometry asset id must not be empty.")
  else if pyStrip p.drive_folder = "" then
    (false, "Google Drive folder name must not be empty.")
  else if p.tile.data.contains ';' then
    (false, "Only one Sentinel-2 tile is supported. Example: T29UPV")
  else if !tileFullmatch p.tile then
    (false, "Sentinel-2 tile must match the pattern (e.g., T29UPV).")
  else
    match parseIsoDate p.start_date, parseIsoDate p.end_date with
    | some start_dt, some end_dt =>
      if PyDate.lt start_dt ⟨2017, 3, 1⟩ then
        (false, "Start date must be after March 2017.")
      else if PyDate.lt end_dt start_dt then
        (false, "End date must be on or after start date.")
      else if ¬ (0 ≤ p.cloudy_percentage ∧ p.cloudy_percentage ≤ 100) then
        (false, "Cloud percentage must be between 0 and 100.")
      else if ¬ (0 ≤ p.max_water_percentage ∧ p.max_water_percentage ≤ 100) then
        (false, "Max water percentage must be between 0 and 100.")
      else if ¬ (-1 ≤ p.start_ndvi ∧ p.start_ndvi ≤ 1 ∧ -1 ≤ p.end_ndvi ∧ p.end_ndvi ≤ 1) then
        (false, "NDVI range must be between -1 and 1.")
      else if p.end_ndvi ≤ p.start_ndvi then
        (false, "NDVI end value must be greater than the start value.")
      else if p.epsg ≤ 0 then
        (false, "EPSG must be a positive integer (e.g., 32629).")
      else (true, "")
    | _, _ => (false, "Date range must be in the format YYYY-MM-DD.")

/-- A validation rule: a violation test and the message reported when the
rule is the first violated one. -/
structure VRule where
  violated : MapperParams → Bool
  message : String

/-- Rule: the tile field must not be empty. -/
def ruleTileNonempty : VRule :=
  ⟨fun p => p.tile == "", "Sentinel-2 tile must not be empty. Example: T29UPV"⟩

/-- Rule: the geometry asset id must not be blank. -/
def ruleGeometryNonempty : VRule :=
  ⟨fun p => pyStrip p.geometry_asset_id == "", "Geometry asset id must not be empty."⟩

/-- Rule: the Drive folder name must not be blank. -/
def ruleFolderNonempty : VRule :=
  ⟨fun p => pyStrip p.drive_folder == "", "Google Drive folder name must not be empty."⟩

/-- Rule: only a single tile (no semicolon-separated list). -/
def ruleSingleTile : VRule :=
  ⟨fun p => p.tile.data.contains ';', "Only one Sentinel-2 tile is supported. Example: T29UPV"⟩

/-- Rule: the tile matches the fixed pattern. -/
def ruleTilePattern : VRule :=
  ⟨fun p => !tileFullmatch p.tile, "Sentinel-2 tile must match the pattern (e.g., T29UPV)."⟩

/-- Rule: both dates parse as `YYYY-MM-DD`. -/
def ruleDateFormat : VRule :=
  ⟨fun p => (parseIsoDate p.start_date).isNone || (parseIsoDate p.end_date).isNone,
    "Date range must be in the format YYYY-MM-DD."⟩

/-- Rule: the start date is not before 2017-03-01. -/
def ruleStartEpoch : VRule :=
  ⟨fun p =>
    match parseIsoDate p.start_date with
    | some s => PyDate.lt s ⟨2017, 3, 1⟩
    | none => false,
    "Start date must be after March 2017."⟩

/-- Rule: the end date is not before the start date. -/
def ruleDateOrder : VRule :=
  ⟨fun p =>
    match parseIsoDate p.start_date, parseIsoDate p.end_date with
    | some s, some e => PyDate.lt e s
    | _, _ => false,
    "End date must be on or after start date."⟩

/-- Rule: the cloud percentage lies in [0, 100]. -/
def ruleCloudRange : VRule :=
  ⟨fun p => !(decide (0 ≤ p.cloudy_percentage ∧ p.cloudy_percentage ≤ 100)),
    "Cloud percentage must be between 0 and 100."⟩

/-- Rule: the water percentage lies in [0, 100]. -/
def ruleWaterRange : VRule :=
  ⟨fun p => !(decide (0 ≤ p.max_water_percentage ∧ p.max_water_percentage ≤ 100)),
    "Max water percentage must be between 0 and 100."⟩

/-- Rule: both NDVI bounds lie in [-1, 1]. -/
def ruleNdviRange : VRule :=
  ⟨fun p =>
    !(decide (-1 ≤ p.start_ndvi ∧ p.start_ndvi ≤ 1 ∧ -1 ≤ p.end_ndvi ∧ p.end_ndvi ≤ 1)),
    "NDVI range must be between -1 and 1."⟩

/-- Rule: the upper NDVI bound exceeds the lower one. -/
def ruleNdviOrder : VRule :=
  ⟨fun p => decide (p.end_ndvi ≤ p.start_ndvi),
    "NDVI end value must be greater than the start value."⟩

/-- Rule: the EPSG code is positive. -/
def ruleEpsgPositive : VRule :=
  ⟨fun p => decide (p.epsg ≤ 0), "EPSG must be a positive integer (e.g., 32629)."⟩

/-- The validation rules of `_validate_params`, in the order the source
applies them. -/
def validationRules : List VRule :=
  [ruleTileNonempty, ruleGeometryNonempty, ruleFolderNonempty, ruleSingleTile,
    ruleTilePattern, ruleDateFormat, ruleStartEpoch, ruleDateOrder,
    ruleCloudRange, ruleWaterRange, ruleNdviRange, ruleNdviOrder, ruleEpsgPositive]

/-- Specification-side semantics of an ordered rule list: report the
message of the first violated rule, or success. -/
def firstViolation : List VRule → MapperParams → Bool × String
  | [], _ => (true, "")
  | r :: rs, p => if r.violated p then (false, r.message) else firstViolation rs p

/-- All rules of a list hold (none is violated). -/
def rulesPass (rs : List VRule) (p : MapperParams) : Bool :=
  rs.all fun r => !(r.violated p)

/-- Per-scene metadata, as fetched by the single batched
`FeatureCollection(...).getInfo()` call of `_process_worker`. -/
structure SceneMeta where
  img_id : String
  date : String
  water : ℚ
  clouds : ℚ
deriving DecidableEq

/-- Observable actions of a processing run: UI updates posted to the main
thread, console reports, export-job submissions and the fixed delay. -/
inductive Event where
  | setProgress (v : ℚ)
  | print (s : String)
  | updateDates (ds : List String)
  | showError (title : String) (msg : String)
  | exportJob (name : String) (folder : String)
  | sleep (secs : Nat)
  | setRunEnabled (b : Bool)
deriving DecidableEq

/-- Name of the NDVI export of `_export_ndvi_and_rgb`:
`f"ndvi_{image_date}_{tile}".replace("-", "")`. -/
def ndviName (image_date tile : String) : String :=
  removeDashes ("ndvi_" ++ image_date ++ "_" ++ tile)

/-- Name of the RGB export of `_export_ndvi_and_rgb`:
`f"rgb_{image_date}_{tile}".replace("-", "")`. -/
def rgbName (image_date tile : String) : String :=
  removeDashes ("rgb_" ++ image_date ++ "_" ++ tile)

/-- Console line printed when the filtered collection is empty. -/
def noMatchesMsg : String := "No images were found that meet the conditions."

/-- Console line printed before the one-time delay after the first export. -/
def waitingMsg : String := "Waiting for Google Drive folder creation..."

/-- Title of the error dialog raised by the worker's exception handler. -/
def processingErrorTitle : String := "Processing Error"

/-- Whether the remote call with the given index is the one that raises
in this run (`none` models a run with no remote failure). -/
def failsAt (failAt : Option Nat) (n : Nat) : Bool :=
  match failAt with
  | some k => decide (k = n)
  | none => false

/-- The per-scene export loop of `_process_worker` together with
`_export_ndvi_and_rgb`.  Remote calls are numbered: the NDVI
`task.start()` of the scene at counter `c` is call `c` and its RGB
`task.start()` is call `c + 1`; the recursion starts at counter 2
(calls 0 and 1 are the two `getInfo` round trips).  Returns the emitted
events and whether the loop ran to completion (`false` when the
designated call raised, aborting the remaining work). -/
def exportLoop (tile folder : String) (failAt : Option Nat) (inc : ℚ) :
    List SceneMeta → Nat → Bool → ℚ → List Event × Bool
  | [], _, _, _ => ([], true)
  | m :: rest, c, isFirst, prog =>
    let prog2 := prog + inc
    if failsAt failAt c then
      ([Event.setProgress prog2], false)
    else
      let firstEvs := if isFirst then [Event.print waitingMsg, Event.sleep 5] else []
      if failsAt failAt (c + 1) then
        ([Event.setProgress prog2, Event.exportJob (ndviName m.date tile) folder] ++ firstEvs,
          false)
      else
        let res := exportLoop tile folder failAt inc rest (c + 2) false prog2
        ([Event.setProgress prog2, Event.exportJob (ndviName m.date tile) folder] ++ firstEvs ++
          [Event.exportJob (rgbName m.date tile) folder] ++ res.1, res.2)

/-- First-seen-order deduplication with an accumulator of already seen
elements; the helper behind `dict.fromkeys`. -/
def dedupGo (seen : List String) : List String → List String
  | [] => []
  | x :: xs => if seen.contains x then dedupGo seen xs else x :: dedupGo (x :: seen) xs

/-- Embedding of `list(dict.fromkeys(dates))`: duplicates removed, first
occurrences kept in encounter order. -/
def dedupFirstSeen (l : List String) : List String := dedupGo [] l

/-- Specification-side restatement of removing duplicates while keeping
the first occurrence of each element in order: keep the head and drop
its later copies from the deduplicated tail. -/
def specDedup : List String → List String
  | [] => []
  | x :: xs => x :: (specDedup xs).filter (fun y => !(y == x))

/-- Embedding of the observable behaviour of
`BioIntertidalMapperApp._process_worker` on a run whose filtered
collection holds the given scenes.  Remote call 0 is
`imgs.size().getInfo()`, call 1 the batched metadata `getInfo`, and
calls `2 + 2 i` / `3 + 2 i` the two `task.start()` submissions of scene
`i`.  When the designated call raises `errMsg`, the except-branch shows
the error and resets progress; the finally-branch re-enables the Run
button on every path. -/
def _process_worker (p : MapperParams) (metas : List SceneMeta)
    (failAt : Option Nat) (errMsg : String) : List Event :=
  let body :=
    if failsAt failAt 0 then
      [Event.setProgress 10, Event.showError processingErrorTitle errMsg, Event.setProgress 0]
    else if metas.length = 0 then
      [Event.setProgress 10, Event.print noMatchesMsg, Event.setProgress 100,
        Event.updateDates []]
    else if failsAt failAt 1 then
      [Event.setProgress 10, Event.setProgress 20,
        Event.showError processingErrorTitle errMsg, Event.setProgress 0]
    else
      let inc : ℚ := 60 / (metas.length : ℚ)
      let res := exportLoop p.tile p.drive_folder failAt inc metas 2 true 40
      let pre := [Event.setProgress 10, Event.setProgress 20, Event.setProgress 40] ++ res.1
      if res.2 then
        pre ++ [Event.updateDates (dedupFirstSeen (metas.map SceneMeta.date)),
          Event.setProgress 100]
      else
        pre ++ [Event.showError processingErrorTitle errMsg, Event.setProgress 0]
  body ++ [Event.setRunEnabled true]

/-- Whether an event is an export-job submission. -/
def isExportEvent : Event → Bool
  | Event.exportJob _ _ => true
  | _ => false

/-- The export-job submissions of a trace, in order. -/
def exportsOf (t : List Event) : List Event := t.filter isExportEvent

/-- The date lists posted to the results pane, in order. -/
def reportedDates (t : List Event) : List (List String) :=
  t.filterMap fun e =>
    match e with
    | Event.updateDates ds => some ds
    | _ => none

/-- The full export schedule of a scene list: for each scene, its NDVI
job then its RGB job. -/
def fullExports (tile folder : String) : List SceneMeta → List Event
  | [] => []
  | m :: rest =>
    Event.exportJob (ndviName m.date tile) folder ::
      Event.exportJob (rgbName m.date tile) folder :: fullExports tile folder rest

theorem dedupGo_eq_filter (l : List String) :
    ∀ seen, dedupGo seen l = (specDedup l).filter (fun y => !(seen.contains y)) := by
  induction l with
  | nil => intro seen; rfl
  | cons x xs ih =>
    intro seen
    by_cases hx : seen.contains x = true
    · have h1 : dedupGo seen (x :: xs) = dedupGo seen xs := if_pos hx
      have hpx : ¬ ((fun y => !(seen.contains y)) x = true) := by
        simp only [hx, Bool.not_true, Bool.false_eq_true, not_false_eq_true]
      have h2 : specDedup (x :: xs) = x :: (specDedup xs).filter (fun y => !(y == x)) := rfl
      rw [h1, ih seen, h2, List.filter_cons, if_neg hpx, List.filter_filter]
      apply List.filter_congr
      intro a _
      by_cases hax : a = x
      · subst hax; simp [List.mem_of_elem_eq_true hx]
      · simp [hax]
    · have h1 : dedupGo seen (x :: xs) = x :: dedupGo (x :: seen) xs := if_neg hx
      have hpx : ((fun y => !(seen.contains y)) x = true) := by
        simp only [Bool.not_eq_true']
        exact Bool.of_not_eq_true hx
      have h2 : specDedup (x :: xs) = x :: (specDedup xs).filter (fun y => !(y == x)) := rfl
      rw [h1, ih (x :: seen), h2, List.filter_cons, if_pos hpx, List.filter_filter]
      congr 1
      apply List.filter_congr
      intro a _
      by_cases hax : a = x
      · subst hax; simp
      · have hxs : ¬ (x ∈ seen) := fun hmem => hx (List.elem_iff.mpr hmem)
        simp [hax, List.contains_cons, Ne.symm hax, Bool.and_comm]

theorem dedupFirstSeen_eq_specDedup (l : List String) : dedupFirstSeen l = specDedup l := by
  rw [dedupFirstSeen, dedupGo_eq_filter]
  apply List.filter_eq_self.mpr
  intro a _
  rfl

theorem specDedup_sublist (l : List String) : List.Sublist (specDedup l) l := by
  induction l with
  | nil => exact List.Sublist.refl []
  | cons x xs ih =>
    exact List.Sublist.cons₂ x (List.Sublist.trans (List.filter_sublist _) ih)

theorem specDedup_nodup (l : List String) : (specDedup l).Nodup := by
  induction l with
  | nil => exact List.nodup_nil
  | cons x xs ih =>
    refine List.nodup_cons.mpr ⟨fun hmem => ?_, ih.filter _⟩
    have := List.of_mem_filter hmem
    simp at this

set_option maxHeartbeats 1000000 in
theorem validate_eq_firstViolation (p : MapperParams) :
    _validate_params p = firstViolation validationRules p := by
  rcases hs : parseIsoDate p.start_date with _ | s <;>
    rcases he : parseIsoDate p.end_date with _ | e <;>
    · unfold _validate_params validationRules
      simp only [firstViolation, ruleTileNonempty, ruleGeometryNonempty, ruleFolderNonempty,
        ruleSingleTile, ruleTilePattern, ruleDateFormat, ruleStartEpoch, ruleDateOrder,
        ruleCloudRange, ruleWaterRange, ruleNdviRange, ruleNdviOrder, ruleEpsgPositive,
        hs, he, Option.isNone_none, Option.isNone_some, Bool.true_or, Bool.or_true,
        Bool.false_or, Bool.or_false, beq_iff_eq, Bool.not_eq_true,
        decide_eq_true_eq, decide_eq_false_iff_not, Bool.not_eq_true', if_true, if_false,
        Bool.false_eq_true, Bool.true_eq_false]

theorem firstViolation_append (rs1 rs2 : List VRule) (p : MapperParams) :
    firstViolation (rs1 ++ rs2) p =
      if rulesPass rs1 p then firstViolation rs2 p else firstViolation rs1 p := by
  induction rs1 with
  | nil => simp [rulesPass, firstViolation]
  | cons r rs ih =>
    by_cases h : r.violated p = true
    · simp [firstViolation, h, rulesPass]
    · simp [firstViolation, h, rulesPass, ih]

theorem firstViolation_fst_iff (rs : List VRule) (p : MapperParams) :
    (firstViolation rs p).1 = true ↔ rulesPass rs p = true := by
  induction rs with
  | nil => simp [firstViolation, rulesPass]
  | cons r rs ih =>
    by_cases h : r.violated p = true
    · simp [firstViolation, h, rulesPass]
    · simp [firstViolation, h, rulesPass, ih]

theorem read_params_eq_spec (r : RawParams) : _read_params_from_ui r = readParamsSpec r := by
  unfold _read_params_from_ui readParamsSpec _parse_int _parse_float
  cases hc : pyParseInt r.cloudy_percentage <;>
  cases hw : pyParseInt r.max_water_percentage <;>
  cases hsn : pyParseFloat r.start_ndvi <;>
  cases hen : pyParseFloat r.end_ndvi <;>
  cases hep : pyParseInt (pyStrip r.epsg) <;> rfl

theorem exportsOf_append (a b : List Event) : exportsOf (a ++ b) = exportsOf a ++ exportsOf b :=
  List.filter_append a b

theorem reportedDates_append (a b : List Event) :
    reportedDates (a ++ b) = reportedDates a ++ reportedDates b :=
  List.filterMap_append a b _

theorem fullExports_length (tile folder : String) (metas : List SceneMeta) :
    (fullExports tile folder metas).length = 2 * metas.length := by
  induction metas with
  | nil => rfl
  | cons m rest ih => simp [fullExports, ih]; ring

theorem exportLoop_none_done (tile folder : String) (inc : ℚ) :
    ∀ (metas : List SceneMeta) (c : Nat) (isFirst : Bool) (prog : ℚ),
      (exportLoop tile folder none inc metas c isFirst prog).2 = true := by
  intro metas
  induction metas with
  | nil => intro c isFirst prog; rfl
  | cons m rest ih =>
    intro c isFirst prog
    simp only [exportLoop, failsAt, Bool.false_eq_true, if_false]
    exact ih (c + 2) false (prog + inc)

theorem exportLoop_none_exports (tile folder : String) (inc : ℚ) :
    ∀ (metas : List SceneMeta) (c : Nat) (isFirst : Bool) (prog : ℚ),
      exportsOf (exportLoop tile folder none inc metas c isFirst prog).1 =
        fullExports tile folder metas := by
  intro metas
  induction metas with
  | nil => intro c isFirst prog; rfl
  | cons m rest ih =>
    intro c isFirst prog
    simp only [exportLoop, failsAt, Bool.false_eq_true, if_false, fullExports]
    rw [exportsOf_append, exportsOf_append, exportsOf_append]
    rw [ih (c + 2) false (prog + inc)]
    cases isFirst <;> rfl

theorem exportLoop_none_dates (tile folder : String) (inc : ℚ) :
    ∀ (metas : List SceneMeta) (c : Nat) (isFirst : Bool) (prog : ℚ),
      reportedDates (exportLoop tile folder none inc metas c isFirst prog).1 = [] := by
  intro metas
  induction metas with
  | nil => intro c isFirst prog; rfl
  | cons m rest ih =>
    intro c isFirst prog
    simp only [exportLoop, failsAt, Bool.false_eq_true, if_false]
    rw [reportedDates_append, reportedDates_append, reportedDates_append]
    rw [ih (c + 2) false (prog + inc)]
    cases isFirst <;> rfl

theorem exportLoop_fail (tile folder : String) (inc : ℚ) :
    ∀ (metas : List SceneMeta) (c j : Nat) (isFirst : Bool) (prog : ℚ),
      j < 2 * metas.length →
      (exportLoop tile folder (some (c + j)) inc metas c isFirst prog).2 = false ∧
      (∃ rest, (exportLoop tile folder none inc metas c isFirst prog).1 =
        (exportLoop tile folder (some (c + j)) inc metas c isFirst prog).1 ++ rest) ∧
      exportsOf (exportLoop tile folder (some (c + j)) inc metas c isFirst prog).1 =
        (fullExports tile folder metas).take j := by
  intro metas
  induction metas with
  | nil => intro c j isFirst prog hj; simp at hj
  | cons m rest ih =>
    intro c j isFirst prog hj
    match j with
    | 0 =>
      simp only [exportLoop, failsAt, Nat.add_zero, decide_eq_true_eq, eq_self_iff_true,
        if_true, Bool.false_eq_true, if_false]
      refine ⟨trivial, ⟨Event.exportJob (ndviName m.date tile) folder ::
        ((if isFirst then [Event.print waitingMsg, Event.sleep 5] else []) ++
          ([Event.exportJob (rgbName m.date tile) folder] ++
            (exportLoop tile folder none inc rest (c + 2) false (prog + inc)).1)), ?_⟩, rfl⟩
      simp [List.append_assoc]
    | 1 =>
      have hne : ¬ (c + 1 = c) := by omega
      simp only [exportLoop, failsAt, decide_eq_true_eq, hne, eq_self_iff_true,
        if_true, if_false, Bool.false_eq_true]
      refine ⟨trivial, ⟨[Event.exportJob (rgbName m.date tile) folder] ++
        (exportLoop tile folder none inc rest (c + 2) false (prog + inc)).1, ?_⟩, ?_⟩
      · simp [List.append_assoc]
      · cases isFirst <;> rfl
    | j2 + 2 =>
      have hcc : c + (j2 + 2) = c + 2 + j2 := by omega
      rw [hcc]
      have h0 : ¬ (c + 2 + j2 = c) := by omega
      have h1 : ¬ (c + 2 + j2 = c + 1) := by omega
      have hj2 : j2 < 2 * rest.length := by
        simp only [List.length_cons] at hj; omega
      obtain ⟨hdone, ⟨r1, hpre⟩, hexp⟩ := ih (c + 2) j2 false (prog + inc) hj2
      have hPfe : exportsOf
          ([Event.setProgress (prog + inc), Event.exportJob (ndviName m.date tile) folder] ++
            (if isFirst then [Event.print waitingMsg, Event.sleep 5] else [])) =
          [Event.exportJob (ndviName m.date tile) folder] := by
        cases isFirst <;> rfl
      simp only [exportLoop, failsAt, decide_eq_true_eq, h0, h1, if_false,
        Bool.false_eq_true]
      refine ⟨hdone, ⟨r1, ?_⟩, ?_⟩
      · rw [List.append_assoc, List.append_assoc, hpre]
        simp [List.append_assoc]
      · rw [exportsOf_append, exportsOf_append, hPfe, hexp]
        simp [fullExports, exportsOf, isExportEvent, List.take_succ_cons]

theorem process_worker_none_run (p : MapperParams) (metas : List SceneMeta) (errMsg : String)
    (h : metas.length ≠ 0) :
    _process_worker p metas none errMsg =
      [Event.setProgress 10, Event.setProgress 20, Event.setProgress 40] ++
        (exportLoop p.tile p.drive_folder none (60 / (metas.length : ℚ)) metas 2 true 40).1 ++
        [Event.updateDates (dedupFirstSeen (metas.map SceneMeta.date)), Event.setProgress 100,
          Event.setRunEnabled true] := by
  unfold _process_worker
  simp only [failsAt, Bool.false_eq_true, if_false, h, exportLoop_none_done, if_true,
    List.append_assoc]
  rfl

/-- Claim C4: on a run whose filtered collection holds zero matching scenes, the
worker reports that no matches were found, posts the empty date list, and
finishes (progress 100, Run re-enabled) without surfacing any error. -/
theorem process_worker_no_matches (p : MapperParams) (errMsg : String) :
    _process_worker p [] none errMsg =
      [Event.setProgress 10, Event.print noMatchesMsg, Event.setProgress 100,
        Event.updateDates [], Event.setRunEnabled true] ∧
    reportedDates (_process_worker p [] none errMsg) = [[]] ∧
    (∀ title msg, Event.showError title msg ∉ _process_worker p [] none errMsg) ∧
    Event.print noMatchesMsg ∈ _process_worker p [] none errMsg := by
  have h : _process_worker p [] none errMsg =
      [Event.setProgress 10, Event.print noMatchesMsg, Event.setProgress 100,
        Event.updateDates [], Event.setRunEnabled true] := rfl
  refine ⟨h, by rw [h]; rfl, ?_, by rw [h]; simp⟩
  intro title msg hmem
  rw [h] at hmem
  simp at hmem

/-- Claim C1: on a run over `N > 0` matching scenes with no remote failure, the
worker submits exactly `2 N` export jobs, for each scene its NDVI job then
its RGB job in scene order, and posts exactly one date list: the per-scene
acquisition dates with duplicates removed keeping first occurrences in
order (a nodup sublist of the original date list). -/
theorem process_worker_exports_and_dates (p : MapperParams) (metas : List SceneMeta)
    (errMsg : String) (h : 0 < metas.length) :
    exportsOf (_process_worker p metas none errMsg) = fullExports p.tile p.drive_folder metas ∧
    (exportsOf (_process_worker p metas none errMsg)).length = 2 * metas.length ∧
    reportedDates (_process_worker p metas none errMsg) =
      [dedupFirstSeen (metas.map SceneMeta.date)] ∧
    dedupFirstSeen (metas.map SceneMeta.date) = specDedup (metas.map SceneMeta.date) ∧
    (dedupFirstSeen (metas.map SceneMeta.date)).Nodup ∧
    List.Sublist (dedupFirstSeen (metas.map SceneMeta.date)) (metas.map SceneMeta.date) := by
  have hne : metas.length ≠ 0 := by omega
  have hx : exportsOf (_process_worker p metas none errMsg) =
      fullExports p.tile p.drive_folder metas := by
    rw [process_worker_none_run p metas errMsg hne, exportsOf_append, exportsOf_append,
      exportLoop_none_exports]
    have e1 : exportsOf [Event.setProgress 10, Event.setProgress 20, Event.setProgress 40] =
      [] := rfl
    have e2 : exportsOf [Event.updateDates (dedupFirstSeen (List.map SceneMeta.date metas)),
      Event.setProgress 100, Event.setRunEnabled true] = [] := rfl
    rw [e1, e2, List.nil_append, List.append_nil]
  refine ⟨hx, by rw [hx, fullExports_length], ?_, dedupFirstSeen_eq_specDedup _, ?_, ?_⟩
  · rw [process_worker_none_run p metas errMsg hne, reportedDates_append,
      reportedDates_append, exportLoop_none_dates]
    have e1 : reportedDates [Event.setProgress 10, Event.setProgress 20, Event.setProgress 40] =
      [] := rfl
    have e2 : reportedDates [Event.updateDates (dedupFirstSeen (List.map SceneMeta.date metas)),
      Event.setProgress 100, Event.setRunEnabled true] =
      [dedupFirstSeen (List.map SceneMeta.date metas)] := rfl
    rw [e1, e2, List.nil_append, List.nil_append]
  · rw [dedupFirstSeen_eq_specDedup]
    exact specDedup_nodup _
  · rw [dedupFirstSeen_eq_specDedup]
    exact specDedup_sublist _

theorem process_worker_exports_and_dates_witness :
    0 < ([⟨"i1", "2021-09-05", 1, 2⟩, ⟨"i2", "2021-09-07", 1, 2⟩,
      ⟨"i3", "2021-09-05", 1, 2⟩] : List SceneMeta).length ∧
    (exportsOf (_process_worker
        ⟨"2021-09-05", "2021-09-25", 20, 20, "T29SQV", mkRat 2 25, 1, "g", 32629, "F"⟩
        [⟨"i1", "2021-09-05", 1, 2⟩, ⟨"i2", "2021-09-07", 1, 2⟩, ⟨"i3", "2021-09-05", 1, 2⟩]
        none "boom")).length =
      2 * 3 := by
  refine ⟨by decide, ?_⟩
  have := process_worker_exports_and_dates
    ⟨"2021-09-05", "2021-09-25", 20, 20, "T29SQV", mkRat 2 25, 1, "g", 32629, "F"⟩
    [⟨"i1", "2021-09-05", 1, 2⟩, ⟨"i2", "2021-09-07", 1, 2⟩, ⟨"i3", "2021-09-05", 1, 2⟩]
    "boom" (by decide)
  exact this.2.1

/-- Claim C3: when the remote call with index `k` raises during a run (call 0:
collection size, call 1: batched metadata, calls 2+2i / 3+2i: the two
export submissions of scene i), the worker stops there: the trace is the
successful prefix followed exactly by the error dialog, the progress
reset to zero and the re-enabling of the Run control; the export jobs
already submitted (the first `k - 2` of the full schedule) stay
submitted and nothing rolls them back, and no further export job is
started. -/
theorem process_worker_failure_semantics (p : MapperParams) (metas : List SceneMeta)
    (k : Nat) (errMsg : String) (hk : k < 2 + 2 * metas.length)
    (hnz : 0 < metas.length ∨ k = 0) :
    ∃ pre, _process_worker p metas (some k) errMsg =
        pre ++ [Event.showError processingErrorTitle errMsg, Event.setProgress 0,
          Event.setRunEnabled true] ∧
      (∃ rest, _process_worker p metas none errMsg = pre ++ rest) ∧
      exportsOf pre = (fullExports p.tile p.drive_folder metas).take (k - 2) ∧
      (exportsOf pre).length = k - 2 := by
  match k with
  | 0 =>
    refine ⟨[Event.setProgress 10], rfl, ?_, rfl, rfl⟩
    match metas with
    | [] =>
      exact ⟨[Event.print noMatchesMsg, Event.setProgress 100, Event.updateDates [],
        Event.setRunEnabled true], rfl⟩
    | m :: rest =>
      have hne : (m :: rest).length ≠ 0 := by simp
      rw [process_worker_none_run p (m :: rest) errMsg hne]
      exact ⟨_, rfl⟩
  | 1 =>
    have hL : 0 < metas.length := by
      rcases hnz with hL | hc
      · exact hL
      · exact absurd hc (by omega)
    match metas, hL with
    | m :: rest, _ =>
      refine ⟨[Event.setProgress 10, Event.setProgress 20], rfl, ?_, rfl, rfl⟩
      have hne : (m :: rest).length ≠ 0 := by simp
      rw [process_worker_none_run p (m :: rest) errMsg hne]
      exact ⟨_, rfl⟩
  | j + 2 =>
    have hL : metas.length ≠ 0 := by omega
    have hj : j < 2 * metas.length := by omega
    have hcc : j + 2 = 2 + j := by omega
    obtain ⟨hdone, ⟨r1, hpre⟩, hexp⟩ :=
      exportLoop_fail p.tile p.drive_folder (60 / (metas.length : ℚ)) metas 2 j true 40 hj
    refine ⟨[Event.setProgress 10, Event.setProgress 20, Event.setProgress 40] ++
      (exportLoop p.tile p.drive_folder (some (j + 2)) (60 / (metas.length : ℚ))
        metas 2 true 40).1, ?_, ?_, ?_, ?_⟩
    · unfold _process_worker
      rw [hcc]
      have h0 : failsAt (some (2 + j)) 0 = false := by
        simp only [failsAt, decide_eq_false_iff_not]; omega
      have h1 : failsAt (some (2 + j)) 1 = false := by
        simp only [failsAt, decide_eq_false_iff_not]; omega
      simp only [h0, h1, Bool.false_eq_true, if_false, hL, hdone, List.append_assoc]
      simp
    · refine ⟨r1 ++ [Event.updateDates (dedupFirstSeen (metas.map SceneMeta.date)),
        Event.setProgress 100, Event.setRunEnabled true], ?_⟩
      rw [process_worker_none_run p metas errMsg hL, hcc, hpre]
      simp [List.append_assoc]
    · rw [exportsOf_append, hcc, hexp]
      have e1 : exportsOf [Event.setProgress 10, Event.setProgress 20, Event.setProgress 40] =
        [] := rfl
      rw [e1, List.nil_append]
      congr 1
      omega
    · rw [exportsOf_append, hcc, hexp]
      have e1 : exportsOf [Event.setProgress 10, Event.setProgress 20, Event.setProgress 40] =
        [] := rfl
      rw [e1, List.nil_append, List.length_take, fullExports_length]
      omega

theorem process_worker_failure_semantics_witness :
    ∃ pre,
      _process_worker
          ⟨"2021-09-05", "2021-09-25", 20, 20, "T29SQV", mkRat 2 25, 1, "g", 32629, "F"⟩
          [⟨"i1", "2021-09-05", 1, 2⟩, ⟨"i2", "2021-09-07", 1, 2⟩] (some 3) "boom" =
        pre ++ [Event.showError processingErrorTitle "boom", Event.setProgress 0,
          Event.setRunEnabled true] ∧
      (∃ rest, _process_worker
          ⟨"2021-09-05", "2021-09-25", 20, 20, "T29SQV", mkRat 2 25, 1, "g", 32629, "F"⟩
          [⟨"i1", "2021-09-05", 1, 2⟩, ⟨"i2", "2021-09-07", 1, 2⟩] none "boom" = pre ++ rest) ∧
      exportsOf pre =
        (fullExports "T29SQV" "F"
          [⟨"i1", "2021-09-05", 1, 2⟩, ⟨"i2", "2021-09-07", 1, 2⟩]).take (3 - 2) ∧
      (exportsOf pre).length = 3 - 2 :=
  process_worker_failure_semantics
    ⟨"2021-09-05", "2021-09-25", 20, 20, "T29SQV", mkRat 2 25, 1, "g", 32629, "F"⟩
    [⟨"i1", "2021-09-05", 1, 2⟩, ⟨"i2", "2021-09-07", 1, 2⟩] 3 "boom"
    (by decide) (Or.inl (by decide))

/-- Claim C2: the input pipeline parses the raw text fields into typed values,
reporting the descriptive message of the first non-numeric field, and the
validator applies its rules in the fixed source order, returning the
message of the first violated rule (both sides are pure functions, so
validation has no side effects). -/
theorem validator_contract :
    (∀ r : RawParams, _read_params_from_ui r = readParamsSpec r) ∧
    (∀ p : MapperParams, _validate_params p = firstViolation validationRules p) :=
  ⟨read_params_eq_spec, validate_eq_firstViolation⟩

theorem rulesPass_violated_false {rs : List VRule} {p : MapperParams} {r : VRule}
    (h : rulesPass rs p = true) (hr : r ∈ rs) : r.violated p = false := by
  simp only [rulesPass, List.all_eq_true] at h
  have := h r hr
  simpa using this

theorem validate_false_of_violated {p : MapperParams} {r : VRule}
    (hmem : r ∈ validationRules) (hvio : r.violated p = true) :
    (_validate_params p).1 = false := by
  cases hfst : (_validate_params p).1
  · rfl
  · exfalso
    have h1 : (firstViolation validationRules p).1 = true := by
      rw [← validate_eq_firstViolation]; exact hfst
    have h2 := (firstViolation_fst_iff validationRules p).mp h1
    have h3 := rulesPass_violated_false h2 hmem
    rw [hvio] at h3
    exact absurd h3 (by simp)

/-- Claim C5: for a parameter record whose two dates are well formed, validation
rejects it when the end date is earlier than the start date, and rejects
it when the start date is before 2017-03-01. -/
theorem validate_date_rules (p : MapperParams) (s e : PyDate)
    (hs : parseIsoDate p.start_date = some s) (he : parseIsoDate p.end_date = some e) :
    (PyDate.lt e s = true → (_validate_params p).1 = false) ∧
    (PyDate.lt s ⟨2017, 3, 1⟩ = true → (_validate_params p).1 = false) := by
  constructor
  · intro hlt
    refine validate_false_of_violated (r := ruleDateOrder) (by simp [validationRules]) ?_
    simp only [ruleDateOrder, hs, he]
    exact hlt
  · intro hlt
    refine validate_false_of_violated (r := ruleStartEpoch) (by simp [validationRules]) ?_
    simp only [ruleStartEpoch, hs]
    exact hlt

theorem validate_date_rules_witness :
    parseIsoDate "2021-09-05" = some ⟨2021, 9, 5⟩ ∧
    PyDate.lt ⟨2021, 9, 1⟩ ⟨2021, 9, 5⟩ = true ∧
    (_validate_params
      ⟨"2021-09-05", "2021-09-01", 20, 20, "T29SQV", mkRat 2 25, 1, "g", 32629, "F"⟩).1 =
      false := by
  refine ⟨by decide, by decide, ?_⟩
  exact (validate_date_rules
    ⟨"2021-09-05", "2021-09-01", 20, 20, "T29SQV", mkRat 2 25, 1, "g", 32629, "F"⟩
    ⟨2021, 9, 5⟩ ⟨2021, 9, 1⟩ (by decide) (by decide)).1 (by decide)

/-- Claim C6: tile parsing normalizes the input "t29sqv" to "T29SQV", which
passes the tile-pattern check of the validator, while "T29SQ" and
"T2SQV1" fail that check. -/
theorem tile_normalization_and_pattern :
    _parse_tile "t29sqv" = "T29SQV" ∧ tileFullmatch "T29SQV" = true ∧
    tileFullmatch "T29SQ" = false ∧ tileFullmatch "T2SQV1" = false :=
  ⟨by decide, by decide, by decide, by decide⟩

/-- Claim C7: a cloud or water percentage outside [0,100] always makes
validation reject the record, and when the checks that the source applies
before the corresponding range rule all pass, the reported message is
exactly that rule's message. -/
theorem validate_percentage_bounds (p : MapperParams) :
    (¬ (0 ≤ p.cloudy_percentage ∧ p.cloudy_percentage ≤ 100) →
      (_validate_params p).1 = false ∧
      (rulesPass (validationRules.take 8) p = true →
        _validate_params p = (false, "Cloud percentage must be between 0 and 100."))) ∧
    (¬ (0 ≤ p.max_water_percentage ∧ p.max_water_percentage ≤ 100) →
      (_validate_params p).1 = false ∧
      (rulesPass (validationRules.take 9) p = true →
        _validate_params p = (false, "Max water percentage must be between 0 and 100."))) := by
  constructor
  · intro h
    have hvio : ruleCloudRange.violated p = true := by
      simp [ruleCloudRange, h]
      omega
    refine ⟨validate_false_of_violated (by simp [validationRules]) hvio, ?_⟩
    intro hpass
    have hsplit : validationRules = validationRules.take 8 ++ validationRules.drop 8 :=
      (List.take_append_drop 8 validationRules).symm
    have hdrop : validationRules.drop 8 =
      [ruleCloudRange, ruleWaterRange, ruleNdviRange, ruleNdviOrder, ruleEpsgPositive] := rfl
    rw [validate_eq_firstViolation, hsplit, firstViolation_append, if_pos hpass, hdrop]
    simp only [firstViolation, hvio, if_true]
    rfl
  · intro h
    have hvio : ruleWaterRange.violated p = true := by
      simp [ruleWaterRange, h]
      omega
    refine ⟨validate_false_of_violated (by simp [validationRules]) hvio, ?_⟩
    intro hpass
    have hsplit : validationRules = validationRules.take 9 ++ validationRules.drop 9 :=
      (List.take_append_drop 9 validationRules).symm
    have hdrop : validationRules.drop 9 =
      [ruleWaterRange, ruleNdviRange, ruleNdviOrder, ruleEpsgPositive] := rfl
    rw [validate_eq_firstViolation, hsplit, firstViolation_append, if_pos hpass, hdrop]
    simp only [firstViolation, hvio, if_true]
    rfl

theorem validate_percentage_bounds_witness :
    (_validate_params
      ⟨"2021-09-05", "2021-09-25", 150, 20, "T29SQV", mkRat 2 25, 1, "g", 32629, "F"⟩).1 =
      false ∧
    _validate_params
      ⟨"2021-09-05", "2021-09-25", 150, 20, "T29SQV", mkRat 2 25, 1, "g", 32629, "F"⟩ =
      (false, "Cloud percentage must be between 0 and 100.") := by
  have h := (validate_percentage_bounds
    ⟨"2021-09-05", "2021-09-25", 150, 20, "T29SQV", mkRat 2 25, 1, "g", 32629, "F"⟩).1
    (by decide)
  exact ⟨h.1, h.2 (by decide)⟩

/-- Claim C8: an NDVI pair whose upper bound does not exceed its lower bound,
or with a bound outside [-1,1], always makes validation reject the
record. -/
theorem validate_ndvi_bounds (p : MapperParams)
    (h : p.end_ndvi ≤ p.start_ndvi ∨
      ¬ (-1 ≤ p.start_ndvi ∧ p.start_ndvi ≤ 1 ∧ -1 ≤ p.end_ndvi ∧ p.end_ndvi ≤ 1)) :
    (_validate_params p).1 = false := by
  rcases h with h | h
  · exact validate_false_of_violated (r := ruleNdviOrder) (by simp [validationRules])
      (by simp [ruleNdviOrder, h])
  · refine validate_false_of_violated (r := ruleNdviRange) (by simp [validationRules]) ?_
    simp only [ruleNdviRange, Bool.not_eq_true', decide_eq_false_iff_not]
    exact h

theorem validate_ndvi_bounds_witness :
    (_validate_params
      ⟨"2021-09-05", "2021-09-25", 20, 20, "T29SQV", 1, mkRat 1 2, "g", 32629, "F"⟩).1 =
      false :=
  validate_ndvi_bounds
    ⟨"2021-09-05", "2021-09-25", 20, 20, "T29SQV", 1, mkRat 1 2, "g", 32629, "F"⟩
    (Or.inl (by decide))

/-- Claim C10: for a record passing every rule the spec states (all rules before
the EPSG rule), validation rejects with the EPSG message exactly when the
EPSG code is not positive. -/
theorem validate_epsg_rule (p : MapperParams)
    (hpass : rulesPass (validationRules.take 12) p = true) :
    (_validate_params p = (false, "EPSG must be a positive integer (e.g., 32629).")) ↔
      p.epsg ≤ 0 := by
  have hsplit : validationRules = validationRules.take 12 ++ validationRules.drop 12 :=
    (List.take_append_drop 12 validationRules).symm
  have hdrop : validationRules.drop 12 = [ruleEpsgPositive] := rfl
  rw [validate_eq_firstViolation, hsplit, firstViolation_append, if_pos hpass, hdrop]
  simp only [firstViolation, ruleEpsgPositive, decide_eq_true_eq]
  constructor
  · intro heq
    by_contra he
    rw [if_neg he] at heq
    simp at heq
  · intro he
    rw [if_pos he]

theorem validate_epsg_rule_witness :
    _validate_params
      ⟨"2021-09-05", "2021-09-25", 20, 20, "T29SQV", mkRat 2 25, 1, "g", 0, "F"⟩ =
      (false, "EPSG must be a positive integer (e.g., 32629).") :=
  (validate_epsg_rule
    ⟨"2021-09-05", "2021-09-25", 20, 20, "T29SQV", mkRat 2 25, 1, "g", 0, "F"⟩
    (by decide)).mpr (by decide)

theorem removeDashes_append (a b : String) :
    removeDashes (a ++ b) = removeDashes a ++ removeDashes b := by
  simp only [removeDashes, String.data_append, List.filter_append]
  rfl

theorem removeDashes_eq_self (s : String) (h : ∀ c ∈ s.data, c ≠ '-') :
    removeDashes s = s := by
  have : s.data.filter (fun c => !(c == '-')) = s.data := by
    apply List.filter_eq_self.mpr
    intro a ha
    simpa using h a ha
  obtain ⟨l⟩ := s
  simp only [removeDashes] at *
  rw [this]

theorem tileFullmatch_no_dash (t : String) (h : tileFullmatch t = true) :
    ∀ c ∈ t.data, c ≠ '-' := by
  obtain ⟨l⟩ := t
  unfold tileFullmatch at h
  split at h
  case h_1 a b c d e f heq =>
    simp only [Bool.and_eq_true, beq_iff_eq, decide_eq_true_eq] at h
    obtain ⟨⟨⟨⟨⟨ha, hb⟩, hc⟩, hd⟩, he⟩, hf⟩ := h
    simp only [String.data] at heq ⊢
    rw [heq]
    intro x hx
    simp only [List.mem_cons, List.not_mem_nil, or_false] at hx
    rcases hx with rfl | rfl | rfl | rfl | rfl | rfl
    · rw [ha]; decide
    · intro hcon; rw [hcon] at hb; exact absurd hb (by decide)
    · intro hcon; rw [hcon] at hc; exact absurd hc (by decide)
    · intro hcon; rw [hcon] at hd; exact absurd hd.1 (by decide)
    · intro hcon; rw [hcon] at he; exact absurd he.1 (by decide)
    · intro hcon; rw [hcon] at hf; exact absurd hf.1 (by decide)
  case h_2 =>
    exact absurd h (by simp)

/-- Claim C9: for a scene exported with a tile accepted by the tile-pattern
check, the two submitted file names are `ndvi_YYYYMMDD_tile` and
`rgb_YYYYMMDD_tile`, where `YYYYMMDD` is the scene's acquisition date
with its hyphens removed. -/
theorem export_names_pattern (d t : String) (h : tileFullmatch t = true) :
    ndviName d t = "ndvi_" ++ removeDashes d ++ "_" ++ t ∧
    rgbName d t = "rgb_" ++ removeDashes d ++ "_" ++ t := by
  have ht : removeDashes t = t := removeDashes_eq_self t (tileFullmatch_no_dash t h)
  constructor
  · rw [ndviName, removeDashes_append, removeDashes_append, removeDashes_append, ht]
    have h1 : removeDashes "ndvi_" = "ndvi_" := by decide
    have h2 : removeDashes "_" = "_" := by decide
    rw [h1, h2]
  · rw [rgbName, removeDashes_append, removeDashes_append, removeDashes_append, ht]
    have h1 : removeDashes "rgb_" = "rgb_" := by decide
    have h2 : removeDashes "_" = "_" := by decide
    rw [h1, h2]

theorem export_names_pattern_witness :
    tileFullmatch "T29SQV" = true ∧
    ndviName "2021-09-05" "T29SQV" = "ndvi_" ++ removeDashes "2021-09-05" ++ "_" ++ "T29SQV" ∧
    rgbName "2021-09-05" "T29SQV" = "rgb_" ++ removeDashes "2021-09-05" ++ "_" ++ "T29SQV" := by
  refine ⟨by decide, ?_, ?_⟩
  · exact (export_names_pattern "2021-09-05" "T29SQV" (by decide)).1
  · exact (export_names_pattern "2021-09-05" "T29SQV" (by decide)).2
